import Mathlib

/-!
Verification development for the ROOF Radio conversation core.

Shallow embedding of the Python sources:
  pipeline_buffer.py, topic_evolver.py,
  writers_room/director.py, writers_room/director_logic_circuit.py,
  writers_room/guide/the_point.py, writers_room/story_interns/pacing_monitor.py

Conventions used throughout:
  - Python floats are modelled as exact rationals (decimal literals such as
    0.8 become 8/10).
  - Python dictionaries holding reports are modelled as structures; a key
    whose absence matters to control flow becomes an Option field.
  - Python sets of strings are modelled as Finset String.
  - Fallible code (statements that can raise) is modelled with Except.
  - Logging, timestamps and disk persistence are side effects with no
    bearing on the values computed and are dropped from the model.
-/

/-! ## String helpers shared by several modules

Python idioms used by the source: `needle in hay` (substring test),
`str.lower`, `str.split()` (whitespace split), and the regexes
`\b[a-z]+\b` and `\b[a-z]{4,}\b` over lowercased text.  The regexes match
maximal runs of word characters that consist solely of the letters a-z
(a run touching a digit or underscore has no word boundary, hence no
match).  We tokenize accordingly: split into maximal runs of word
characters, then keep the all-lowercase-alphabetic runs.  Only ASCII is
modelled; the repository feeds ASCII host text through these paths. -/

/-- Character-list prefix test (Python startswith-style helper for `strHas`). -/
def hasPrefixChars : List Char → List Char → Bool
  | [], _ => true
  | _ :: _, [] => false
  | a :: as, b :: bs => a == b && hasPrefixChars as bs

/-- Contiguous-sublist test on character lists. -/
def hasSubChars (n : List Char) : List Char → Bool
  | [] => hasPrefixChars n []
  | c :: cs => hasPrefixChars n (c :: cs) || hasSubChars n cs

/-- Python `needle in hay` on strings: substring containment. -/
def strHas (hay needle : String) : Bool :=
  hasSubChars needle.data hay.data

/-- Python `str.lower` (ASCII): per-character lowercasing.  Stated over the
character list so that it reduces in the kernel. -/
def lowerStr (s : String) : String :=
  String.mk (s.data.map Char.toLower)

/-- Python `c in s` for a single character: list membership.  Stated over
the character list so that it reduces in the kernel. -/
def charIn (s : String) (c : Char) : Bool :=
  s.data.contains c

/-- Split a character list into maximal runs of characters satisfying `p`
(separators are dropped, empty runs do not appear). `acc` carries the
current run reversed. -/
def splitRunsGo (p : Char → Bool) : (acc : List Char) → List Char → List (List Char)
  | acc, [] => if acc.isEmpty then [] else [acc.reverse]
  | acc, c :: cs =>
    if p c then splitRunsGo p (c :: acc) cs
    else if acc.isEmpty then splitRunsGo p [] cs
    else acc.reverse :: splitRunsGo p [] cs

/-- Maximal runs of characters satisfying `p`. -/
def splitRuns (p : Char → Bool) (l : List Char) : List (List Char) :=
  splitRunsGo p [] l

/-- Python regex word character `\w` (ASCII part): letter, digit or underscore. -/
def isWordChar (c : Char) : Bool :=
  c.isAlpha || c.isDigit || c == '_'

/-- Lowercase ASCII letter, the regex class `[a-z]`. -/
def isAsciiLower (c : Char) : Bool :=
  'a' ≤ c && c ≤ 'z'

/-- `re.findall(r'\b[a-z]+\b', text.lower())`: maximal word-character runs of
the lowercased text that consist solely of the letters a-z. -/
def pyWords (text : String) : List String :=
  ((splitRuns isWordChar (lowerStr text).data).filter
      (fun r => r.all isAsciiLower)).map (fun r => String.mk r)

/-- Python `str.split()` with no argument: maximal runs of non-whitespace. -/
def pySplitWs (s : String) : List String :=
  ((splitRuns (fun c => !c.isWhitespace) s.data)).map (fun r => String.mk r)

/-! ## pipeline_buffer.py — PipelineBuffer -/

namespace PipelineBuffer

/-- ResearchBrief: the opaque result of `intern.research`; the logic circuit
only ever reads its `findings` list (`research.get('findings')`). -/
structure ResearchBrief where
  findings : List String
deriving DecidableEq

/-- One buffered package placed on `response_queue` by the worker
(`pipeline_buffer.py` lines 80-86).  The `generated_at` timestamp and
`pipeline_time` latency are wall-clock observations and are dropped. -/
structure BufferedItem where
  host : String
  message : String
  research : ResearchBrief
deriving DecidableEq

/-- State of a `PipelineBuffer` instance.  `response_queue` is the bounded
`queue.Queue(maxsize=2)` as its element list; `running_workers` counts
spawned `pipeline_worker` threads that have not yet finished (the Python
object only stores the latest handle in `pipeline_thread`; the live threads
themselves are OS state, counted here).  `pipeline_active` is initialized
False and never written or read again by any method. -/
structure PipelineState where
  response_queue : List BufferedItem
  pipeline_active : Bool
  running_workers : Nat
  total_buffered : Nat
  buffer_hits : Nat
  buffer_misses : Nat
deriving DecidableEq

/-- `PipelineBuffer.__init__`. -/
def initState : PipelineState :=
  { response_queue := []
    pipeline_active := false
    running_workers := 0
    total_buffered := 0
    buffer_hits := 0
    buffer_misses := 0 }

/-- `queue.Queue(maxsize=2)`. -/
def queueMaxsize : Nat := 2

/-- `PipelineBuffer.start_pipeline` (lines 41-101): defines the worker
closure and then unconditionally spawns it on a new daemon thread.  No
field is consulted before spawning (in particular `pipeline_active` and the
previous `pipeline_thread` are not checked), so each call adds one more
concurrently running worker. -/
def startPipeline (st : PipelineState) : PipelineState :=
  { st with running_workers := st.running_workers + 1 }

/-- Effect of one `pipeline_worker` run (lines 55-97) on the buffer state,
given the outcomes of the two collaborator calls.  `research` is the result
of `next_intern.research(...)`; `speak` maps a research brief to the result
of `next_host.speak(...)`.  A raised exception from either call, or
`queue.Full` from the non-blocking `put(block=False)` when the queue
already holds `maxsize` items, is caught inside the worker: the state is
left unchanged (result discarded, only logged).  On success the item is
appended and `total_buffered` is incremented.  The worker thread finishes
in every case: `running_workers` drops by one. -/
def pipelineWorker (research : Except String ResearchBrief)
    (speak : ResearchBrief → Except String String)
    (host : String) (st : PipelineState) : PipelineState :=
  let done : PipelineState := { st with running_workers := st.running_workers - 1 }
  match research with
  | .error _ => done
  | .ok r =>
    match speak r with
    | .error _ => done
    | .ok response =>
      if queueMaxsize ≤ st.response_queue.length then done
      else
        { done with
          response_queue := st.response_queue ++ [⟨host, response, r⟩]
          total_buffered := st.total_buffered + 1 }

/-- `PipelineBuffer.get_buffered_response` (lines 103-120): a bounded-timeout
`Queue.get`.  An empty queue raises `queue.Empty` after the timeout, which
is caught: the call returns None and increments `buffer_misses`.  Otherwise
the head item is dequeued and `buffer_hits` is incremented.  The timeout
parameter only bounds the wait and does not affect which value is
returned, so it is not part of the functional model. -/
def getBufferedResponse (st : PipelineState) :
    Option BufferedItem × PipelineState :=
  match st.response_queue with
  | [] => (none, { st with buffer_misses := st.buffer_misses + 1 })
  | item :: rest =>
    (some item, { st with response_queue := rest, buffer_hits := st.buffer_hits + 1 })

end PipelineBuffer

/-! ## topic_evolver.py — TopicEvolver.should_evolve -/

namespace TopicEvolver

/-- `TopicEvolver.should_evolve` (lines 164-182). -/
def shouldEvolve (exchange_count : Nat) : Bool :=
  if exchange_count < 4 then false
  else if exchange_count < 10 then exchange_count % 3 == 0
  else exchange_count % 2 == 0

end TopicEvolver

/-! ## writers_room/guide/the_point.py — ThePoint -/

namespace ThePoint

/-- Stopword set of `ThePoint._is_stopword_combo` (lines 289-294). -/
def comboStopwords : List String :=
  ["the", "a", "an", "and", "or", "but", "in", "on", "at", "to",
   "for", "of", "with", "by", "from", "about", "that", "this",
   "these", "those", "what", "which", "who", "when", "where",
   "how", "why", "there", "here", "been", "being", "have", "has"]

/-- Stopword set of `ThePoint._extract_key_terms` (lines 338-343); note it
differs from the combo set. -/
def keyTermStopwords : List String :=
  ["the", "a", "an", "and", "or", "but", "in", "on", "at", "to",
   "for", "of", "with", "by", "from", "about", "that", "this",
   "have", "been", "would", "could", "should", "will", "can",
   "may", "might", "must", "shall"]

/-- `ThePoint._is_stopword_combo` (lines 287-295). -/
def isStopwordCombo (word1 word2 : String) : Bool :=
  comboStopwords.contains word1 || comboStopwords.contains word2

/-- `ThePoint._extract_key_terms` (lines 336-346):
`re.findall(r'\b[a-z]{4,}\b', text.lower())` filtered by the stopword set.
The regex part is `pyWords` restricted to runs of length at least 4. -/
def extractKeyTerms (text : String) : List String :=
  (pyWords text).filter (fun w => 4 ≤ w.length && !keyTermStopwords.contains w)

/-- Bigram pass of `ThePoint._extract_themes` (lines 269-274). -/
def bigramThemes : List String → List String
  | a :: b :: rest =>
    (if 3 < a.length && 3 < b.length && !isStopwordCombo a b
     then [a ++ " " ++ b] else []) ++ bigramThemes (b :: rest)
  | _ => []

/-- Trigram pass of `ThePoint._extract_themes` (lines 277-281); as in the
source, the stopword filter inspects only the first two words. -/
def trigramThemes : List String → List String
  | a :: b :: c :: rest =>
    (if (3 < a.length && 3 < b.length && 3 < c.length) && !isStopwordCombo a b
     then [a ++ " " ++ b ++ " " ++ c] else []) ++ trigramThemes (b :: c :: rest)
  | _ => []

/-- `ThePoint._extract_themes` (lines 257-285).  The source deduplicates via
`list(set(themes))` (CPython set iteration order); we model that as
first-occurrence deduplication, then `[:10]`. -/
def extractThemes (text : String) : List String :=
  let words := pyWords text
  ((bigramThemes words ++ trigramThemes words).dedup).take 10

/-- `ThePoint._calculate_coherence` (lines 297-334): Jaccard similarity of
the key-term sets of the new themes and the existing facets, with the three
0.5 fallbacks of the source. -/
def calculateCoherence (new_themes existing_facets : List String) : ℚ :=
  if existing_facets.isEmpty || new_themes.isEmpty then 1/2
  else
    let new_terms : Finset String :=
      new_themes.foldl (fun acc t => acc ∪ (extractKeyTerms t).toFinset) ∅
    let existing_terms : Finset String :=
      existing_facets.foldl (fun acc f => acc ∪ (extractKeyTerms f).toFinset) ∅
    if existing_terms = ∅ then 1/2
    else
      let overlap := (new_terms ∩ existing_terms).card
      let union := (new_terms ∪ existing_terms).card
      if union = 0 then 1/2
      else (overlap : ℚ) / (union : ℚ)

/-- `ThePoint._is_repetitive` (lines 348-371): any generic agreement phrase
occurs as a substring of the lowercased message. -/
def isRepetitive (message : String) : Bool :=
  (["that\x27s interesting", "i agree", "you\x27re right", "that makes sense",
    "good point", "absolutely", "exactly"]).any
    (fun phrase => strHas (lowerStr message) phrase)

/-- State of a `ThePoint` instance (`current_point` dict plus the mutable
attributes the directive path reads).  `point_history`, `observations` and
the persistence file only record logs and are dropped.  `host_distances`
is the dict written by `calculate_host_distance`; we model a dict by a
cons-on-write association list read through `List.lookup` (first match
wins, so a later write shadows an earlier one exactly like a dict update).
-/
structure PointState where
  essence : String
  facets : List String
  strength : ℚ
  saturation : ℚ
  exchange_count : Nat
  host_distances : List (String × ℚ)

/-- `ThePoint.__init__` (lines 37-66) for a fresh start: no persisted file
exists, so `_load_state` leaves the freshly built state unchanged. -/
def initPoint (initial_topic : String) : PointState :=
  { essence := initial_topic
    facets := [initial_topic]
    strength := 1
    saturation := 0
    exchange_count := 0
    host_distances := [] }

/-- Facet update step of `update_point_from_exchange` (lines 95-103): append
an unseen theme longer than 5 characters, then evict the oldest facet when
the list exceeds 5. -/
def facetStep (facets : List String) (theme : String) : List String :=
  if !facets.contains theme && 5 < theme.length then
    let grown := facets ++ [theme]
    if 5 < grown.length then grown.tail else grown
  else facets

/-- `ThePoint.update_point_from_exchange` (lines 68-146).  Observation
recording, persistence and log lines have no effect on the state fields
modelled here.  The saturation increment is 0.05, plus a bonus 0.05 when
the message is repetitive, capped at 1.0. -/
def updatePoint (st : PointState) (_host_name message : String) : PointState :=
  let themes := extractThemes message
  let newFacets := themes.foldl facetStep st.facets
  let coherence := calculateCoherence themes newFacets
  let newStrength := (7/10 : ℚ) * st.strength + (3/10 : ℚ) * coherence
  let inc : ℚ := if isRepetitive message then 1/20 + 1/20 else 1/20
  let satRaw := st.saturation + inc
  let newSat := if 1 < satRaw then 1 else satRaw
  { st with
    exchange_count := st.exchange_count + 1
    facets := newFacets
    strength := newStrength
    saturation := newSat }

/-- Sequence of `update_point_from_exchange` calls, oldest first. -/
def runUpdates (st : PointState) (l : List (String × String)) : PointState :=
  l.foldl (fun s hm => updatePoint s hm.1 hm.2) st

/-- Key-term set of a host arc theme, as built at line 161. -/
def arcTerms (host_arc_theme : String) : Finset String :=
  (extractKeyTerms host_arc_theme).toFinset

/-- Union of the key-term sets of the current facets, lines 162-164. -/
def pointTerms (st : PointState) : Finset String :=
  st.facets.foldl (fun acc f => acc ∪ (extractKeyTerms f).toFinset) ∅

/-- `ThePoint.calculate_host_distance` (lines 149-178).  Returns the
distance together with the state whose `host_distances` dict now maps
`host_name` to it.  The inner `len(point_terms) == 0` test of the source is
kept although it is unreachable under the outer emptiness test. -/
def calcHostDistance (st : PointState) (host_name host_arc_theme : String) :
    ℚ × PointState :=
  let arc := arcTerms host_arc_theme
  let pts := pointTerms st
  let distance : ℚ :=
    if pts = ∅ then 1/2
    else
      let overlap := (arc ∩ pts).card
      if pts.card = 0 then 1/2
      else 1 - (overlap : ℚ) / ((max arc.card pts.card : Nat) : ℚ)
  (distance, { st with host_distances := (host_name, distance) :: st.host_distances })

/-- A gravitational-pull record (lines 200-207); the constant
`type: gravitational_pull` tag is implicit in the Lean type. -/
structure Pull where
  strength : String
  distance : ℚ
  instruction : String
  point_essence : String
  point_facets : List String

/-- `ThePoint.get_gravitational_pull` (lines 182-207).
`host_distances.get(host_name, 0.0)` becomes a lookup with default 0. -/
def gravitationalPull (st : PointState) (host_name : String) : Option Pull :=
  let distance := ((st.host_distances.lookup host_name).getD 0)
  if distance < 7/10 then none
  else if distance < 17/20 then
    some { strength := "gentle", distance := distance
           instruction := "You\x27re drifting from the core point. Return to: " ++ st.essence
           point_essence := st.essence, point_facets := st.facets }
  else
    some { strength := "strong", distance := distance
           instruction := "You\x27ve drifted far from the point! Core topic is: "
             ++ st.essence ++ ". Reconnect."
           point_essence := st.essence, point_facets := st.facets }

end ThePoint

/-! ## writers_room/director_logic_circuit.py — LogicCircuit -/

namespace LogicCircuit

/-- One conversation exchange as the logic circuit reads it: dict with a
`message` and an optional `research` dict whose `findings` list is the only
field consulted.  `ex.get('research', {}).get('findings')` is falsy both
when the key is absent and when the list is empty, so a missing research
key is represented by empty findings. -/
structure Exchange where
  message : String
  research : PipelineBuffer.ResearchBrief
deriving DecidableEq

/-- Topic tracker report as consumed by the rules: only `saturation` is
read (`ctx['topic_tracker']['saturation']`). -/
structure TopicReport where
  saturation : ℚ

/-- Fact checker report; no rule reads it, the circuit only carries it in
its context.  Kept for the report bundle shape. -/
structure FactReport where
  flagged_claims : List String

/-- Pacing report fields read by the rules: `energy_level`, `trend`, and
`monotony_detected` (the last through `.get` with default False, so it is
always readable once the report dict is present). -/
structure PacingReport where
  energy_level : ℚ
  trend : String
  monotony_detected : Bool

/-- The four analyzer reports as gathered by
`Director._gather_intern_reports`.  Each is an Option: a missing dict key
makes the subscripting conditions raise `KeyError`.  The question-generator
report is never read by any rule and carries no payload here. -/
structure InternReports where
  topic_tracker : Option TopicReport
  question_generator : Option Unit
  fact_checker : Option FactReport
  pacing_monitor : Option PacingReport

/-- The read-only evaluation context built at lines 47-53: the reports plus
the recent exchanges and the speaker identities. -/
structure Ctx where
  topic_tracker : Option TopicReport
  question_generator : Option Unit
  fact_checker : Option FactReport
  pacing_monitor : Option PacingReport
  recent_exchanges : List Exchange
  host_name : String
  intern_name : String
  other_host : String

/-- A rule record (`_build_rules` docstring, lines 95-107).  A condition
may raise, modelled by `Except`; the instruction template takes the three
interpolation arguments `intern_name`, `other_host`, `host_name`. -/
structure Rule where
  name : String
  pattern : String
  condition : Ctx → Except String Bool
  verb : String
  noun : String
  instruction_template : String → String → String → String
  priority : Nat

/-- The deflection marker list of `_detect_question_dodging` (lines 260-270). -/
def deflectionMarkers : List String :=
  ["interesting", "fascinating", "profound", "reminds me", "speaking of",
   "actually", "but what about", "that said", "on the other hand"]

/-- Core of `_detect_question_dodging` (lines 234-284), taking the recent
exchanges newest first (`recent[-1]` is the head, `recent[-2]` the second
element); fewer than two exchanges yield False. -/
def questionDodgingRev : List Exchange → Bool
  | lastEx :: prevEx :: _ =>
    let prev_message := prevEx.message
    let last_message := lastEx.message
    if !charIn prev_message '?' then false
    else
      let lowered := lowerStr last_message
      let deflection_count :=
        (deflectionMarkers.filter (fun m => strHas lowered m)).length
      if 2 ≤ deflection_count && 200 < last_message.length then true
      else
        let first_words := " ".intercalate ((pySplitWs lowered).take 5)
        deflectionMarkers.any (fun m => strHas first_words m)
  | _ => false

/-- `LogicCircuit._detect_question_dodging`. -/
def detectQuestionDodging (ctx : Ctx) : Bool :=
  questionDodgingRev ctx.recent_exchanges.reverse

/-- Core of `_detect_question_present` (lines 286-294): a question mark in
the second-to-last exchange. -/
def questionPresentRev : List Exchange → Bool
  | _ :: prevEx :: _ => charIn prevEx.message '?'
  | _ => false

/-- `LogicCircuit._detect_question_present`. -/
def detectQuestionPresent (ctx : Ctx) : Bool :=
  questionPresentRev ctx.recent_exchanges.reverse

/-- Citation markers of `_detect_intern_ignored` (lines 325-329). -/
def citationMarkers : List String :=
  ["found", "according to", "study", "research",
   "report", "data shows", "evidence", "survey"]

/-- Core of `_detect_intern_ignored` (lines 296-335) on the reversed
exchange list: research findings present in the last exchange but neither
an intern name nor a citation marker in its message. -/
def internIgnoredRev : List Exchange → Bool
  | lastEx :: _ =>
    let message := lastEx.message
    if lastEx.research.findings.isEmpty then false
    else
      let lowered := lowerStr message
      let mentioned_intern := (["taco", "clunt"]).any (fun n => strHas lowered n)
      let cited_sources := citationMarkers.any (fun m => strHas lowered m)
      !mentioned_intern && !cited_sources
  | [] => false

/-- `LogicCircuit._detect_intern_ignored`. -/
def detectInternIgnored (ctx : Ctx) : Bool :=
  internIgnoredRev ctx.recent_exchanges.reverse

/-- Rule `question_dodging`, priority 110. -/
def ruleQuestionDodging : Rule :=
  { name := "question_dodging", pattern := "unanswered_question"
    condition := fun ctx => .ok (detectQuestionDodging ctx)
    verb := "FOCUS", noun := "QUESTION"
    instruction_template := fun _ o _ =>
      "Answer " ++ o ++ "\x27s question directly - stop deflecting"
    priority := 110 }

/-- Rule `question_exists`, priority 100. -/
def ruleQuestionExists : Rule :=
  { name := "question_exists", pattern := "question_present"
    condition := fun ctx => .ok (detectQuestionPresent ctx)
    verb := "FOCUS", noun := "QUESTION"
    instruction_template := fun _ o _ =>
      "Prioritize answering " ++ o ++ "\x27s question"
    priority := 100 }

/-- Rule `ignoring_intern`, priority 95. -/
def ruleIgnoringIntern : Rule :=
  { name := "ignoring_intern", pattern := "fresh_research_ignored"
    condition := fun ctx => .ok (detectInternIgnored ctx)
    verb := "FOCUS", noun := "INTERN"
    instruction_template := fun i _ _ =>
      "Use what " ++ i ++ " just found - it\x27s the key insight here"
    priority := 95 }

/-- Rule `beating_dead_horse`, priority 85; its condition subscripts
`ctx['topic_tracker']['saturation']`, raising KeyError when the report is
absent. -/
def ruleBeatingDeadHorse : Rule :=
  { name := "beating_dead_horse", pattern := "same_research_repeated"
    condition := fun ctx =>
      match ctx.topic_tracker with
      | none => .error "KeyError: topic_tracker"
      | some t => .ok (decide ((8/10 : ℚ) < t.saturation))
    verb := "AVOID", noun := "INTERN"
    instruction_template := fun i _ _ =>
      "Stop rehashing " ++ i ++ "\x27s data - we\x27ve covered it thoroughly"
    priority := 85 }

/-- Rule `moderate_saturation`, priority 80. -/
def ruleModerateSaturation : Rule :=
  { name := "moderate_saturation", pattern := "topic_getting_stale"
    condition := fun ctx =>
      match ctx.topic_tracker with
      | none => .error "KeyError: topic_tracker"
      | some t => .ok (decide ((13/20 : ℚ) < t.saturation ∧ t.saturation ≤ 8/10))
    verb := "FOCUS", noun := "INTERN"
    instruction_template := fun i _ _ =>
      "Find a fresh angle in " ++ i ++ "\x27s research - topic is getting stale"
    priority := 80 }

/-- Rule `energy_critical`, priority 75. -/
def ruleEnergyCritical : Rule :=
  { name := "energy_critical", pattern := "very_low_energy"
    condition := fun ctx =>
      match ctx.pacing_monitor with
      | none => .error "KeyError: pacing_monitor"
      | some p => .ok (decide (p.energy_level < 3/10))
    verb := "FOCUS", noun := "INTERN"
    instruction_template := fun i _ _ =>
      "INJECT ENERGY - what did " ++ i ++ " find that\x27s surprising or controversial?"
    priority := 75 }

/-- Rule `energy_low`, priority 70. -/
def ruleEnergyLow : Rule :=
  { name := "energy_low", pattern := "low_energy"
    condition := fun ctx =>
      match ctx.pacing_monitor with
      | none => .error "KeyError: pacing_monitor"
      | some p => .ok (decide (p.energy_level < 1/2))
    verb := "FOCUS", noun := "INTERN"
    instruction_template := fun i _ _ =>
      "Boost energy - highlight what\x27s interesting in " ++ i ++ "\x27s findings"
    priority := 70 }

/-- Rule `energy_falling`, priority 65. -/
def ruleEnergyFalling : Rule :=
  { name := "energy_falling", pattern := "declining_energy"
    condition := fun ctx =>
      match ctx.pacing_monitor with
      | none => .error "KeyError: pacing_monitor"
      | some p => .ok (p.trend == "falling")
    verb := "FOCUS", noun := "INTERN"
    instruction_template := fun i _ _ =>
      "Energy dropping - use " ++ i ++ "\x27s research to reignite interest"
    priority := 65 }

/-- Rule `monotony_detected`, priority 55; the flag is read with
`.get('monotony_detected', False)`, so only a missing pacing report can
raise. -/
def ruleMonotony : Rule :=
  { name := "monotony_detected", pattern := "monotonous_pattern"
    condition := fun ctx =>
      match ctx.pacing_monitor with
      | none => .error "KeyError: pacing_monitor"
      | some p => .ok p.monotony_detected
    verb := "FOCUS", noun := "INTERN"
    instruction_template := fun i _ _ =>
      "Break the monotony - vary your delivery using " ++ i ++ "\x27s data"
    priority := 55 }

/-- Rule `fresh_intern_data`, priority 50: the always-true default rule. -/
def ruleFreshInternData : Rule :=
  { name := "fresh_intern_data", pattern := "new_research_available"
    condition := fun _ => .ok true
    verb := "FOCUS", noun := "INTERN"
    instruction_template := fun i _ _ => "Build on what " ++ i ++ " discovered"
    priority := 50 }

/-- `LogicCircuit._build_rules` (lines 95-228), in declaration order. -/
def rules : List Rule :=
  [ruleQuestionDodging, ruleQuestionExists, ruleIgnoringIntern,
   ruleBeatingDeadHorse, ruleModerateSaturation, ruleEnergyCritical,
   ruleEnergyLow, ruleEnergyFalling, ruleMonotony, ruleFreshInternData]

/-- Stable descending insertion used to model
`sorted(self.rules, key=priority, reverse=True)` (line 56): an element is
placed before the first rule of strictly smaller priority, so equal
priorities keep declaration order exactly as Python's stable sort does. -/
def insertByPriority (r : Rule) : List Rule → List Rule
  | [] => [r]
  | s :: ss =>
    if s.priority < r.priority then r :: s :: ss
    else s :: insertByPriority r ss

/-- Stable sort by descending priority. -/
def sortByPriorityDesc (l : List Rule) : List Rule :=
  l.foldr insertByPriority []

/-- The directive dict returned by `evaluate`. -/
structure Directive where
  verb : String
  noun : String
  command : String
  instruction : String
  reason : String
  rule_triggered : String
deriving DecidableEq

/-- Directive built from a matching rule (lines 72-79). -/
def mkDirective (r : Rule) (ctx : Ctx) : Directive :=
  { verb := r.verb, noun := r.noun
    command := r.verb ++ " " ++ r.noun
    instruction := r.instruction_template ctx.intern_name ctx.other_host ctx.host_name
    reason := "Pattern: " ++ r.pattern
    rule_triggered := r.name }

/-- The fixed default directive (lines 86-93). -/
def defaultDirective (ctx : Ctx) : Directive :=
  { verb := "FOCUS", noun := "INTERN"
    command := "FOCUS INTERN"
    instruction := "Build on what " ++ ctx.intern_name ++ " discovered"
    reason := "Default: ground conversation in research"
    rule_triggered := "default" }

/-- The evaluation loop of `evaluate` (lines 59-93): first rule whose
condition returns True wins; a condition returning False or raising is
skipped (the `except` clause logs and continues); exhaustion yields the
default directive.  The loop itself never raises. -/
def evaluateRules (ctx : Ctx) : List Rule → Directive
  | [] => defaultDirective ctx
  | r :: rs =>
    match r.condition ctx with
    | .ok true => mkDirective r ctx
    | .ok false => evaluateRules ctx rs
    | .error _ => evaluateRules ctx rs

/-- Intern paired with a host (line 43). -/
def internNameFor (host_name : String) : String :=
  if host_name == "Goku" then "Taco" else "Clunt"

/-- The other host (line 44). -/
def otherHostFor (host_name : String) : String :=
  if host_name == "Goku" then "Homer" else "Goku"

/-- Context construction of `evaluate` (lines 42-53). -/
def mkCtx (reports : InternReports) (recent_exchanges : List Exchange)
    (host_name : String) : Ctx :=
  { topic_tracker := reports.topic_tracker
    question_generator := reports.question_generator
    fact_checker := reports.fact_checker
    pacing_monitor := reports.pacing_monitor
    recent_exchanges := recent_exchanges
    host_name := host_name
    intern_name := internNameFor host_name
    other_host := otherHostFor host_name }

/-- `LogicCircuit.evaluate` (lines 27-93). -/
def evaluate (reports : InternReports) (recent_exchanges : List Exchange)
    (host_name : String) : Directive :=
  evaluateRules (mkCtx reports recent_exchanges host_name)
    (sortByPriorityDesc rules)

end LogicCircuit

/-! ## writers_room/story_interns/pacing_monitor.py — PacingMonitor -/

namespace PacingMonitor

/-- Arithmetic mean of a rational list (`statistics.mean`). -/
def mean (l : List ℚ) : ℚ := l.sum / (l.length : ℚ)

/-- Sample variance (`statistics.stdev` squared): sum of squared deviations
over n - 1. -/
def sampleVariance (l : List ℚ) : ℚ :=
  (l.map (fun x => (x - mean l) ^ 2)).sum / ((l.length : ℚ) - 1)

/-- The report of `PacingMonitor.analyze`.  The `energy_level` of the full
report is `min(avg/500,1) + min(stdev/200,0.3)` where `stdev` is a float
square root; it is irrational in general and outside this rational model —
no field modelled here depends on it (the trend uses only means, the
monotony flag compares `stdev < 50`, equivalent to `variance < 2500`).
Fields absent from the insufficient-data report are Options.  The
`suggestions` strings and the rounding applied to the reported numbers are
presentation only and are dropped. -/
structure PacingAnalysis where
  trend : String
  monotony_detected : Option Bool
  avg_message_length : Option ℚ
  status : String
deriving DecidableEq

/-- `PacingMonitor.analyze` (lines 27-99).  `lengths[-3:]` is the last
three lengths, `lengths[:3]` the first three; with fewer than six
exchanges the earlier baseline falls back to the overall average
(line 51).  Trend thresholds: rising above 1.2x, falling below 0.8x
(lines 71-76).  Monotony: deviation below 50 over more than three turns
(line 79), stated on the variance. -/
def analyze (recent_exchanges : List LogicCircuit.Exchange) : PacingAnalysis :=
  if recent_exchanges.length < 3 then
    { trend := "stable", monotony_detected := none
      avg_message_length := none, status := "insufficient_data" }
  else
    let lengths : List ℚ :=
      recent_exchanges.map (fun ex => (ex.message.length : ℚ))
    let avg_length := mean lengths
    let recent_avg := mean (lengths.drop (lengths.length - 3))
    let earlier_avg := if 6 ≤ lengths.length then mean (lengths.take 3) else avg_length
    let trend :=
      if earlier_avg * (6/5) < recent_avg then "rising"
      else if recent_avg < earlier_avg * (4/5) then "falling"
      else "stable"
    let monotony :=
      decide (sampleVariance lengths < 2500) && decide (3 < lengths.length)
    { trend := trend, monotony_detected := some monotony
      avg_message_length := some avg_length, status := "analyzed" }

end PacingMonitor

/-! ## writers_room/director.py — Director.get_directive -/

namespace Director

/-- A host object as `get_directive` sees it.  `current_topic_focus` is an
attribute set by `smart_host.py`; `hasattr` failure is the none case.
The arc tracker consulted by the Phase 4 block is log-only. -/
structure Host where
  name : String
  current_topic_focus : Option String
  arc_alignment : Option ℚ

/-- Director state relevant to `get_directive`.  `__init__` (lines 28-59)
sets `the_point = None`, `point_monitoring = True` and leaves the host
references unset; `broadcast.py` later attaches The Point, sets
`point_monitoring = False` and the two hosts. -/
structure DirectorState where
  intervention_frequency : Nat
  exchange_count : Nat
  the_point : Option ThePoint.PointState
  point_monitoring : Bool
  goku : Option Host
  homer : Option Host

/-- `Director._get_host_by_name` (lines 172-178).  The attribute checks
`hasattr(self, 'goku')` are always true after `__init__`, but reading
`.name` of an unset (None) host raises AttributeError. -/
def getHostByName (d : DirectorState) (host_name : String) :
    Except String (Option Host) :=
  match d.goku with
  | none => .error "AttributeError: NoneType has no attribute name"
  | some g =>
    if g.name == host_name then .ok (some g)
    else
      match d.homer with
      | none => .error "AttributeError: NoneType has no attribute name"
      | some h =>
        if h.name == host_name then .ok (some h) else .ok none

/-- Results returned by `get_directive`: either the off-cadence CONTINUE
dict (type/instruction/reason shape, lines 118-122) or a full directive
dict (the gravitational-pull return at lines 148-155 or the logic-circuit
directive). -/
inductive DirectorResult
  | continueTurn (instruction reason : String)
  | directive (dv : LogicCircuit.Directive)
deriving DecidableEq

/-- Python `f-string` percent formatting `{x:.0%}` on the distance, modelled
with rounding to the nearest integer percent (`round` rounds halves up
where CPython rounds the underlying float to even; the two agree except on
exact half-percent values). -/
def percentFmt (q : ℚ) : String :=
  toString (round (q * 100) : ℤ) ++ "%"

/-- `Director.get_directive` (lines 110-170).

The analyzer reports are computed by `_gather_intern_reports` from the same
`recent_exchanges` before any decision is taken and are consumed only by
the logic circuit; they are supplied here as the `reports` argument.

Control flow from the source: off-cadence calls return the CONTINUE dict.
On a cadence turn, when The Point is attached and `point_monitoring` is
False, the host is resolved and, if it carries a `current_topic_focus`,
its distance from The Point is computed and a strong gravitational pull
returns the pull directive before the logic circuit runs; the Phase 4
arc-drift block only logs.  When that gate is false, the local variable
`host` is never assigned, and the Phase 4 line `if host and ...` raises
UnboundLocalError, so the call never reaches the logic circuit. -/
def getDirective (d : DirectorState) (reports : LogicCircuit.InternReports)
    (host_name : String) (recent_exchanges : List LogicCircuit.Exchange) :
    Except String DirectorResult :=
  if d.intervention_frequency == 0 then
    .error "ZeroDivisionError: integer modulo by zero"
  else if d.exchange_count % d.intervention_frequency != 0 then
    .ok (.continueTurn "" "Not time to intervene yet")
  else
    match d.the_point, d.point_monitoring with
    | some pt, false =>
      match getHostByName d host_name with
      | .error e => .error e
      | .ok hostOpt =>
        let circuit : DirectorResult :=
          .directive (LogicCircuit.evaluate reports recent_exchanges host_name)
        match hostOpt with
        | some h =>
          match h.current_topic_focus with
          | some focus =>
            let dp := ThePoint.calcHostDistance pt host_name focus
            match ThePoint.gravitationalPull dp.2 host_name with
            | some pull =>
              if pull.strength == "strong" then
                .ok (.directive
                  { verb := "FOCUS", noun := "INTERN"
                    command := "FOCUS INTERN"
                    instruction := pull.instruction
                    reason := "Gravitational pull: " ++ percentFmt dp.1 ++ " from Point"
                    rule_triggered := "point_gravity" })
              else .ok circuit
            | none => .ok circuit
          | none => .ok circuit
        | none => .ok circuit
    | _, _ =>
      .error "UnboundLocalError: local variable host referenced before assignment"

end Director

/-! ## Concrete inputs used by individual claims -/

/-- An exchange whose message is `n` copies of the letter a: only its length
matters to the pacing monitor. -/
def lenEx (n : Nat) : LogicCircuit.Exchange :=
  { message := String.mk (List.replicate n 'a'), research := ⟨[]⟩ }

/-- Report bundle with topic saturation 0.9, no flagged claims and no
pacing report. -/
def reportsSat09 : LogicCircuit.InternReports :=
  { topic_tracker := some ⟨9/10⟩, question_generator := none
    fact_checker := some ⟨[]⟩, pacing_monitor := none }

/-- Report bundle with every analyzer key absent. -/
def reportsEmpty : LogicCircuit.InternReports :=
  { topic_tracker := none, question_generator := none
    fact_checker := none, pacing_monitor := none }

/-- A host named Goku whose current arc focus shares no significant term
with the facet "honor" of the fresh Point below. -/
def gokuHost : Director.Host :=
  { name := "Goku", current_topic_focus := some "pizza party", arc_alignment := none }

/-- Director on an intervention-cadence turn (exchange 3 of frequency 3)
with The Point attached but `point_monitoring` still True, exactly as
`Director.__init__` leaves the flag. -/
def directorMonitoring : Director.DirectorState :=
  { intervention_frequency := 3, exchange_count := 3
    the_point := some (ThePoint.initPoint "honor"), point_monitoring := true
    goku := some gokuHost, homer := none }

/-- The same Director with `point_monitoring` disabled, as `broadcast.py`
configures it. -/
def directorLive : Director.DirectorState :=
  { directorMonitoring with point_monitoring := false }

/-- An evaluation context for the rule-fault claim. -/
def faultCtx : LogicCircuit.Ctx :=
  LogicCircuit.mkCtx reportsEmpty [] "Goku"

/-- A rule whose condition always raises. -/
def alwaysFaultingRule : LogicCircuit.Rule :=
  { name := "always_faults", pattern := "none"
    condition := fun _ => .error "boom"
    verb := "FOCUS", noun := "INTERN"
    instruction_template := fun i _ _ => i
    priority := 99 }

/-! ## Theorems -/

/-- C1: the claim states that a second `start_pipeline` before the previous
background task completes is rejected or queued, so that two background
tasks never run concurrently against the same instance.  The code has no
such guard: two immediate starts from a fresh buffer leave two unfinished
workers running concurrently. -/
theorem c1_counterexample :
    (PipelineBuffer.startPipeline
        (PipelineBuffer.startPipeline PipelineBuffer.initState)).running_workers = 2 ∧
    ¬ (PipelineBuffer.startPipeline
        (PipelineBuffer.startPipeline PipelineBuffer.initState)).running_workers ≤ 1 := by
  exact ⟨rfl, by decide⟩

/-- C1 (amended): `start_pipeline` neither rejects nor queues a second
call: every call unconditionally spawns one more background worker and
changes nothing else in the buffer state (the `pipeline_active` flag is
never consulted), so keeping a single task in flight is solely the
caller's contract. -/
theorem c1_theorem (st : PipelineBuffer.PipelineState) :
    PipelineBuffer.startPipeline st =
      { st with running_workers := st.running_workers + 1 } :=
  rfl

/-- C6: if the research call fails, the generation call fails, or the
handoff queue is already full on push, the `pipeline_worker` run produces
nothing: the queue and all counters are unchanged and the worker merely
finishes.  The model is a total function, so no exception reaches the
caller of `start_pipeline`, and the push is the non-blocking
`put(block=False)`. -/
theorem c6_theorem (research : Except String PipelineBuffer.ResearchBrief)
    (speak : PipelineBuffer.ResearchBrief → Except String String)
    (host : String) (st : PipelineBuffer.PipelineState)
    (h : (∃ e, research = .error e) ∨
         (∃ r e, research = .ok r ∧ speak r = .error e) ∨
         PipelineBuffer.queueMaxsize ≤ st.response_queue.length) :
    PipelineBuffer.pipelineWorker research speak host st =
      { st with running_workers := st.running_workers - 1 } := by
  rcases h with ⟨e, he⟩ | ⟨r, e, hr, he⟩ | hfull
  · rw [he]; rfl
  · rw [hr]
    simp only [PipelineBuffer.pipelineWorker, he]
  · cases research with
    | error e => rfl
    | ok r =>
      cases hs : speak r with
      | error e => simp only [PipelineBuffer.pipelineWorker, hs]
      | ok resp => simp only [PipelineBuffer.pipelineWorker, hs, if_pos hfull]

/-- C6 witness: a failing research call on a fresh buffer produces
nothing. -/
theorem c6_witness :
    PipelineBuffer.pipelineWorker (.error "research failed")
        (fun _ => .ok "reply") "Goku" PipelineBuffer.initState =
      { PipelineBuffer.initState with
        running_workers := PipelineBuffer.initState.running_workers - 1 } :=
  c6_theorem (.error "research failed") (fun _ => .ok "reply") "Goku"
    PipelineBuffer.initState (Or.inl ⟨"research failed", rfl⟩)

/-- C7: `get_buffered_response` on an empty handoff queue returns None
without raising, increments `buffer_misses`, and changes nothing else
(queue, hits, total and spawn count are untouched). -/
theorem c7_theorem (st : PipelineBuffer.PipelineState)
    (h : st.response_queue = []) :
    PipelineBuffer.getBufferedResponse st =
      (none, { st with buffer_misses := st.buffer_misses + 1 }) := by
  simp only [PipelineBuffer.getBufferedResponse, h]

/-- C7 witness: the fresh buffer has an empty queue and a miss is a plain
counter increment. -/
theorem c7_witness :
    PipelineBuffer.getBufferedResponse PipelineBuffer.initState =
      (none, { PipelineBuffer.initState with
               buffer_misses := PipelineBuffer.initState.buffer_misses + 1 }) :=
  c7_theorem PipelineBuffer.initState rfl

/-- C10: `should_evolve` is false for turns 1-3, true on turns 4-9 exactly
at multiples of 3 (hence at 6 and 9), and true from turn 10 on exactly at
even turns. -/
theorem c10_theorem (n : Nat) :
    (1 ≤ n → n ≤ 3 → TopicEvolver.shouldEvolve n = false) ∧
    (4 ≤ n → n ≤ 9 → (TopicEvolver.shouldEvolve n = true ↔ n % 3 = 0)) ∧
    (10 ≤ n → (TopicEvolver.shouldEvolve n = true ↔ n % 2 = 0)) := by
  refine ⟨fun h1 h2 => ?_, fun h1 h2 => ?_, fun h1 => ?_⟩
  · simp only [TopicEvolver.shouldEvolve]
    rw [if_pos (by omega)]
  · simp only [TopicEvolver.shouldEvolve]
    rw [if_neg (by omega), if_pos (by omega)]
    simp
  · simp only [TopicEvolver.shouldEvolve]
    rw [if_neg (by omega), if_neg (by omega)]
    simp

/-- C10 witness: concrete turns 2, 6 and 10. -/
theorem c10_witness :
    TopicEvolver.shouldEvolve 2 = false ∧
    TopicEvolver.shouldEvolve 6 = true ∧
    TopicEvolver.shouldEvolve 10 = true :=
  ⟨(c10_theorem 2).1 (by decide) (by decide),
   ((c10_theorem 6).2.1 (by decide) (by decide)).mpr (by decide),
   ((c10_theorem 10).2.2 (by decide)).mpr (by decide)⟩

/-- The saturation field of one update: increment of 0.05 (doubled on a
repetitive message) capped at 1. -/
theorem updatePoint_saturation_eq (st : ThePoint.PointState) (h m : String) :
    (ThePoint.updatePoint st h m).saturation =
      (if 1 < st.saturation + (if ThePoint.isRepetitive m then 1/20 + 1/20 else 1/20)
       then 1
       else st.saturation + (if ThePoint.isRepetitive m then 1/20 + 1/20 else 1/20)) :=
  rfl

/-- One update keeps saturation in the unit interval and never decreases
it. -/
theorem saturation_step_props (st : ThePoint.PointState) (h m : String)
    (h0 : 0 ≤ st.saturation) (h1 : st.saturation ≤ 1) :
    0 ≤ (ThePoint.updatePoint st h m).saturation ∧
    (ThePoint.updatePoint st h m).saturation ≤ 1 ∧
    st.saturation ≤ (ThePoint.updatePoint st h m).saturation := by
  rw [updatePoint_saturation_eq]
  set inc := (if ThePoint.isRepetitive m then (1 : ℚ)/20 + 1/20 else 1/20) with hinc
  have hpos : 0 < inc := by
    rw [hinc]; split <;> norm_num
  split
  · exact ⟨by norm_num, le_refl 1, h1⟩
  · next hif =>
    have hle : st.saturation + inc ≤ 1 := not_lt.mp hif
    exact ⟨by linarith, hle, by linarith⟩

/-- Any run of updates from a state with saturation in the unit interval
stays in the unit interval. -/
theorem runUpdates_saturation_inv (l : List (String × String)) :
    ∀ st : ThePoint.PointState, 0 ≤ st.saturation → st.saturation ≤ 1 →
      0 ≤ (ThePoint.runUpdates st l).saturation ∧
      (ThePoint.runUpdates st l).saturation ≤ 1 := by
  induction l with
  | nil => exact fun st h0 h1 => ⟨h0, h1⟩
  | cons x xs ih =>
    intro st h0 h1
    have step := saturation_step_props st x.1 x.2 h0 h1
    exact ih (ThePoint.updatePoint st x.1 x.2) step.1 step.2.1

/-- Appending one more exchange to a run is one more update. -/
theorem runUpdates_append_one (st : ThePoint.PointState)
    (l : List (String × String)) (x : String × String) :
    ThePoint.runUpdates st (l ++ [x]) =
      ThePoint.updatePoint (ThePoint.runUpdates st l) x.1 x.2 := by
  simp [ThePoint.runUpdates]

/-- C9: starting from a freshly initialized Point, over every sequence of
`update_point_from_exchange` calls the saturation stays in the interval
0 to 1 and one further call never decreases it — so saturation is
non-decreasing across calls absent an external reset. -/
theorem c9_theorem (topic : String) (l : List (String × String)) (h m : String) :
    0 ≤ (ThePoint.runUpdates (ThePoint.initPoint topic) l).saturation ∧
    (ThePoint.runUpdates (ThePoint.initPoint topic) l).saturation ≤ 1 ∧
    (ThePoint.runUpdates (ThePoint.initPoint topic) l).saturation ≤
      (ThePoint.runUpdates (ThePoint.initPoint topic) (l ++ [(h, m)])).saturation := by
  have hinit0 : (ThePoint.initPoint topic).saturation = 0 := rfl
  have hinv := runUpdates_saturation_inv l (ThePoint.initPoint topic)
    (by rw [hinit0]) (by rw [hinit0]; norm_num)
  refine ⟨hinv.1, hinv.2, ?_⟩
  rw [runUpdates_append_one]
  exact (saturation_step_props _ h m hinv.1 hinv.2).2.2

/-- C4: the claim states the distance is 0 whenever the arc terms are a
superset of the facet terms.  With the fresh Point on "honor" (facet terms
exactly the set containing honor) and an arc theme whose terms strictly
contain them, the code returns 1/2, not 0: the divisor is the larger set
size, so a strict superset has positive distance. -/
theorem c4_counterexample :
    ThePoint.pointTerms (ThePoint.initPoint "honor") ⊆
      ThePoint.arcTerms "honor bushido" ∧
    (ThePoint.calcHostDistance (ThePoint.initPoint "honor") "Goku"
        "honor bushido").1 = 1/2 ∧
    ((1 : ℚ)/2 ≠ 0) := by
  have hne : ThePoint.pointTerms (ThePoint.initPoint "honor") ≠ ∅ := by decide
  have harc : (ThePoint.arcTerms "honor bushido").card = 2 := by decide
  have hpt : (ThePoint.pointTerms (ThePoint.initPoint "honor")).card = 1 := by decide
  have hint : (ThePoint.arcTerms "honor bushido" ∩
      ThePoint.pointTerms (ThePoint.initPoint "honor")).card = 1 := by decide
  refine ⟨by decide, ?_, by norm_num⟩
  simp only [ThePoint.calcHostDistance, if_neg hne]
  rw [if_neg (by rw [hpt]; norm_num), hint, harc, hpt]
  norm_num

/-- C4 (amended): whenever the facet term set is nonempty,
`calculate_host_distance` returns exactly
`1 − |arc ∩ facets| / max(|arc|, |facets|)`; consequently it is 0 exactly
when the arc terms equal the facet terms (a strict superset gives a
positive distance), and it is 1 when the two term sets have no overlap.
(With an empty facet term set the code returns the fixed unknown value
1/2 instead.) -/
theorem c4_theorem (st : ThePoint.PointState) (host_name theme : String)
    (hp : ThePoint.pointTerms st ≠ ∅) :
    ((ThePoint.calcHostDistance st host_name theme).1 =
      1 - ((ThePoint.arcTerms theme ∩ ThePoint.pointTerms st).card : ℚ) /
          ((max (ThePoint.arcTerms theme).card (ThePoint.pointTerms st).card : Nat) : ℚ)) ∧
    ((ThePoint.calcHostDistance st host_name theme).1 = 0 ↔
      ThePoint.arcTerms theme = ThePoint.pointTerms st) ∧
    (ThePoint.arcTerms theme ∩ ThePoint.pointTerms st = ∅ →
      (ThePoint.calcHostDistance st host_name theme).1 = 1) := by
  have hcard : (ThePoint.pointTerms st).card ≠ 0 := by
    simpa [Finset.card_eq_zero] using hp
  have hform : (ThePoint.calcHostDistance st host_name theme).1 =
      1 - ((ThePoint.arcTerms theme ∩ ThePoint.pointTerms st).card : ℚ) /
          ((max (ThePoint.arcTerms theme).card (ThePoint.pointTerms st).card : Nat) : ℚ) := by
    simp only [ThePoint.calcHostDistance, if_neg hp, if_neg hcard]
  set a := ThePoint.arcTerms theme with ha
  set p := ThePoint.pointTerms st with hpdef
  set o := (a ∩ p).card with ho
  set m := max a.card p.card with hm
  have hmpos : 0 < m := lt_of_lt_of_le (Nat.pos_of_ne_zero hcard) (le_max_right _ _)
  have hmQ : (0 : ℚ) < (m : ℚ) := by exact_mod_cast hmpos
  refine ⟨hform, ?_, ?_⟩
  · rw [hform]
    constructor
    · intro hz
      have hdiv : ((o : ℚ) / (m : ℚ)) = 1 := by linarith
      have hoeqQ : (o : ℚ) = (m : ℚ) := by
        rw [div_eq_one_iff_eq (ne_of_gt hmQ)] at hdiv
        exact hdiv
      have hoeqN : o = m := by exact_mod_cast hoeqQ
      have hsub1 : a ∩ p ⊆ a := Finset.inter_subset_left
      have hsub2 : a ∩ p ⊆ p := Finset.inter_subset_right
      have hle1 : a.card ≤ o := le_of_le_of_eq (le_max_left _ _) hoeqN.symm
      have hle2 : p.card ≤ o := le_of_le_of_eq (le_max_right _ _) hoeqN.symm
      have hia : a ∩ p = a := Finset.eq_of_subset_of_card_le hsub1 hle1
      have hip : a ∩ p = p := Finset.eq_of_subset_of_card_le hsub2 hle2
      rw [← hia]
      exact hip
    · intro heq
      have hoeq : o = m := by
        rw [ho, hm, heq, Finset.inter_self]
        simp
      rw [hoeq, div_self (ne_of_gt hmQ)]
      ring
  · intro hnone
    rw [hform, ho, hnone]
    simp

/-- C4 witness: the fresh Point on "honor" has nonempty facet terms and the
distance-zero criterion applies to the arc theme "honor". -/
theorem c4_witness :
    ThePoint.pointTerms (ThePoint.initPoint "honor") ≠ ∅ ∧
    ((ThePoint.calcHostDistance (ThePoint.initPoint "honor") "Goku" "honor").1 = 0 ↔
      ThePoint.arcTerms "honor" = ThePoint.pointTerms (ThePoint.initPoint "honor")) :=
  ⟨by decide,
   (c4_theorem (ThePoint.initPoint "honor") "Goku" "honor" (by decide)).2.1⟩

/-- C3: the claim states that three turns of lengths 50, 400, 120 make the
trend "falling".  With exactly three exchanges the last-3 mean equals the
overall mean, which is also the baseline (the first-3 baseline is used only
from six exchanges on), so the code reports "stable". -/
theorem lenEx_length (n : Nat) : (lenEx n).message.length = n := by
  rw [show (lenEx n).message = String.mk (List.replicate n 'a') from rfl, String.length]
  exact List.length_replicate n 'a'

theorem c3_counterexample :
    (PacingMonitor.analyze [lenEx 50, lenEx 400, lenEx 120]).trend = "stable" ∧
    ("stable" : String) ≠ "falling" := by
  constructor
  · simp only [PacingMonitor.analyze, List.length_cons, List.length_nil,
      List.map_cons, List.map_nil, lenEx_length]
    norm_num [PacingMonitor.mean]
  · decide

/-- C3 (amended): on exactly three turns the pacing trend is always
"stable", whatever the message lengths: the last-3 mean then equals the
baseline, which is the first-3 mean only when six or more turns exist and
the overall mean otherwise.  Against that baseline "falling" can fire from
four turns on — four turns of lengths 1000,10,10,10 report "falling"
(recent mean 10 below 0.8 times the overall mean 257.5), as do six turns
of lengths 400,400,400,50,50,50 against the first-3 baseline. -/
theorem c3_theorem :
    (∀ e1 e2 e3 : LogicCircuit.Exchange,
      (PacingMonitor.analyze [e1, e2, e3]).trend = "stable") ∧
    (PacingMonitor.analyze
        [lenEx 1000, lenEx 10, lenEx 10, lenEx 10]).trend = "falling" ∧
    (PacingMonitor.analyze
        [lenEx 400, lenEx 400, lenEx 400, lenEx 50, lenEx 50, lenEx 50]).trend =
      "falling" := by
  refine ⟨?_, ?_, ?_⟩
  · intro e1 e2 e3
    have h0 : 0 ≤ PacingMonitor.mean
        [(e1.message.length : ℚ), (e2.message.length : ℚ), (e3.message.length : ℚ)] := by
      simp only [PacingMonitor.mean, List.sum_cons, List.sum_nil,
        List.length_cons, List.length_nil]
      positivity
    simp only [PacingMonitor.analyze, List.length_cons, List.length_nil,
      List.map_cons, List.map_nil]
    norm_num
    rw [if_neg (by nlinarith), if_neg (by nlinarith)]
  · simp only [PacingMonitor.analyze, List.length_cons, List.length_nil,
      List.map_cons, List.map_nil, lenEx_length]
    norm_num [PacingMonitor.mean]
  · simp only [PacingMonitor.analyze, List.length_cons, List.length_nil,
      List.map_cons, List.map_nil, lenEx_length]
    norm_num [PacingMonitor.mean]

/-- Evaluation step: a rule whose condition returns True produces its
directive. -/
theorem evaluateRules_cons_true (ctx : LogicCircuit.Ctx) (r : LogicCircuit.Rule)
    (rs : List LogicCircuit.Rule) (h : r.condition ctx = .ok true) :
    LogicCircuit.evaluateRules ctx (r :: rs) = LogicCircuit.mkDirective r ctx := by
  simp [LogicCircuit.evaluateRules, h]

/-- Evaluation step: a rule whose condition returns False is passed over. -/
theorem evaluateRules_cons_false (ctx : LogicCircuit.Ctx) (r : LogicCircuit.Rule)
    (rs : List LogicCircuit.Rule) (h : r.condition ctx = .ok false) :
    LogicCircuit.evaluateRules ctx (r :: rs) = LogicCircuit.evaluateRules ctx rs := by
  simp [LogicCircuit.evaluateRules, h]

/-- Evaluation step: a rule whose condition raises is skipped. -/
theorem evaluateRules_cons_err (ctx : LogicCircuit.Ctx) (r : LogicCircuit.Rule)
    (rs : List LogicCircuit.Rule) (msg : String) (h : r.condition ctx = .error msg) :
    LogicCircuit.evaluateRules ctx (r :: rs) = LogicCircuit.evaluateRules ctx rs := by
  simp [LogicCircuit.evaluateRules, h]

/-- The rule table is already in descending priority order, so the stable
sort leaves it unchanged. -/
theorem sortRules_eq :
    LogicCircuit.sortByPriorityDesc LogicCircuit.rules = LogicCircuit.rules := rfl

/-- A question-free history never triggers the question-dodging detector. -/
theorem questionDodging_false_of_no_question (recent : List LogicCircuit.Exchange)
    (hq : ∀ ex ∈ recent, charIn ex.message '?' = false) :
    LogicCircuit.questionDodgingRev recent.reverse = false := by
  cases hrev : recent.reverse with
  | nil => rfl
  | cons lastEx t =>
    cases t with
    | nil => rfl
    | cons prevEx rest =>
      have hmem : prevEx ∈ recent := by
        rw [← List.mem_reverse, hrev]
        exact List.mem_cons_of_mem _ (List.mem_cons_self _ _)
      simp [LogicCircuit.questionDodgingRev, hq prevEx hmem]

/-- A question-free history never triggers the question-present detector. -/
theorem questionPresent_false_of_no_question (recent : List LogicCircuit.Exchange)
    (hq : ∀ ex ∈ recent, charIn ex.message '?' = false) :
    LogicCircuit.questionPresentRev recent.reverse = false := by
  cases hrev : recent.reverse with
  | nil => rfl
  | cons lastEx t =>
    cases t with
    | nil => rfl
    | cons prevEx rest =>
      have hmem : prevEx ∈ recent := by
        rw [← List.mem_reverse, hrev]
        exact List.mem_cons_of_mem _ (List.mem_cons_self _ _)
      simp [LogicCircuit.questionPresentRev, hq prevEx hmem]

/-- Without research findings the ignored-research detector never fires. -/
theorem internIgnored_false_of_no_findings (recent : List LogicCircuit.Exchange)
    (hr : ∀ ex ∈ recent, ex.research.findings = []) :
    LogicCircuit.internIgnoredRev recent.reverse = false := by
  cases hrev : recent.reverse with
  | nil => rfl
  | cons lastEx t =>
    have hmem : lastEx ∈ recent := by
      rw [← List.mem_reverse, hrev]
      exact List.mem_cons_self _ _
    simp [LogicCircuit.internIgnoredRev, hr lastEx hmem]

/-- C5: when the topic report says saturation 0.9, the fact checker has
flagged nothing, no recent message contains a question mark and no recent
exchange carries research findings, `evaluate` returns the
"beating a dead horse" directive — verb AVOID, noun INTERN, from the rule
of priority 85 — and not the default directive. -/
theorem c5_theorem (reports : LogicCircuit.InternReports)
    (recent : List LogicCircuit.Exchange) (host_name : String)
    (tr : LogicCircuit.TopicReport)
    (htr : reports.topic_tracker = some tr)
    (hsat : tr.saturation = 9/10)
    (_hflag : ∀ fr, reports.fact_checker = some fr → fr.flagged_claims = [])
    (hq : ∀ ex ∈ recent, charIn ex.message '?' = false)
    (hr : ∀ ex ∈ recent, ex.research.findings = []) :
    LogicCircuit.evaluate reports recent host_name =
      { verb := "AVOID", noun := "INTERN", command := "AVOID INTERN"
        instruction := "Stop rehashing " ++ LogicCircuit.internNameFor host_name ++
          "\x27s data - we\x27ve covered it thoroughly"
        reason := "Pattern: same_research_repeated"
        rule_triggered := "beating_dead_horse" } ∧
    LogicCircuit.ruleBeatingDeadHorse.priority = 85 ∧
    LogicCircuit.ruleBeatingDeadHorse ∈ LogicCircuit.rules ∧
    LogicCircuit.evaluate reports recent host_name ≠
      LogicCircuit.defaultDirective (LogicCircuit.mkCtx reports recent host_name) := by
  have hctxrec : (LogicCircuit.mkCtx reports recent host_name).recent_exchanges = recent := rfl
  have h110 : LogicCircuit.ruleQuestionDodging.condition
      (LogicCircuit.mkCtx reports recent host_name) = .ok false := by
    simp only [LogicCircuit.ruleQuestionDodging, LogicCircuit.detectQuestionDodging, hctxrec]
    rw [questionDodging_false_of_no_question recent hq]
  have h100 : LogicCircuit.ruleQuestionExists.condition
      (LogicCircuit.mkCtx reports recent host_name) = .ok false := by
    simp only [LogicCircuit.ruleQuestionExists, LogicCircuit.detectQuestionPresent, hctxrec]
    rw [questionPresent_false_of_no_question recent hq]
  have h95 : LogicCircuit.ruleIgnoringIntern.condition
      (LogicCircuit.mkCtx reports recent host_name) = .ok false := by
    simp only [LogicCircuit.ruleIgnoringIntern, LogicCircuit.detectInternIgnored, hctxrec]
    rw [internIgnored_false_of_no_findings recent hr]
  have h85 : LogicCircuit.ruleBeatingDeadHorse.condition
      (LogicCircuit.mkCtx reports recent host_name) = .ok true := by
    have hctxtt : (LogicCircuit.mkCtx reports recent host_name).topic_tracker =
        some tr := by
      rw [← htr]; rfl
    simp only [LogicCircuit.ruleBeatingDeadHorse, hctxtt, hsat]
    norm_num
  have heval : LogicCircuit.evaluate reports recent host_name =
      LogicCircuit.mkDirective LogicCircuit.ruleBeatingDeadHorse
        (LogicCircuit.mkCtx reports recent host_name) := by
    rw [LogicCircuit.evaluate, sortRules_eq, LogicCircuit.rules,
      evaluateRules_cons_false _ _ _ h110,
      evaluateRules_cons_false _ _ _ h100,
      evaluateRules_cons_false _ _ _ h95,
      evaluateRules_cons_true _ _ _ h85]
  refine ⟨?_, rfl, ?_, ?_⟩
  · rw [heval]; rfl
  · simp [LogicCircuit.rules]
  · rw [heval]
    intro hcontra
    have := congrArg LogicCircuit.Directive.verb hcontra
    simp [LogicCircuit.mkDirective, LogicCircuit.ruleBeatingDeadHorse,
      LogicCircuit.defaultDirective] at this

/-- C5 witness: concrete reports with saturation 0.9, empty flagged
claims, and an empty exchange history, for the speaker Goku. -/
theorem c5_witness :
    LogicCircuit.evaluate reportsSat09 [] "Goku" =
      { verb := "AVOID", noun := "INTERN", command := "AVOID INTERN"
        instruction := "Stop rehashing " ++ LogicCircuit.internNameFor "Goku" ++
          "\x27s data - we\x27ve covered it thoroughly"
        reason := "Pattern: same_research_repeated"
        rule_triggered := "beating_dead_horse" } ∧
    LogicCircuit.ruleBeatingDeadHorse.priority = 85 ∧
    LogicCircuit.ruleBeatingDeadHorse ∈ LogicCircuit.rules ∧
    LogicCircuit.evaluate reportsSat09 [] "Goku" ≠
      LogicCircuit.defaultDirective (LogicCircuit.mkCtx reportsSat09 [] "Goku") :=
  c5_theorem reportsSat09 [] "Goku" ⟨9/10⟩ rfl rfl
    (fun fr hfr => by injection hfr with h; rw [← h])
    (fun ex hex => absurd hex (List.not_mem_nil ex))
    (fun ex hex => absurd hex (List.not_mem_nil ex))

/-- C8: a rule whose condition raises during evaluation is skipped and the
loop continues with the remaining rules in order; when every rule's
condition faults, `evaluate`'s loop returns the fixed default directive
(FOCUS INTERN, built from the intern name) — the loop is a total function
and never propagates the fault. -/
theorem c8_theorem (ctx : LogicCircuit.Ctx) (r : LogicCircuit.Rule)
    (rs ruleTable : List LogicCircuit.Rule) (msg : String) :
    (r.condition ctx = .error msg →
      LogicCircuit.evaluateRules ctx (r :: rs) = LogicCircuit.evaluateRules ctx rs) ∧
    ((∀ r' ∈ ruleTable, ∃ m, r'.condition ctx = .error m) →
      LogicCircuit.evaluateRules ctx ruleTable = LogicCircuit.defaultDirective ctx) := by
  constructor
  · intro h
    exact evaluateRules_cons_err ctx r rs msg h
  · intro hall
    induction ruleTable with
    | nil => rfl
    | cons r' rs' ih =>
      obtain ⟨m, hm⟩ := hall r' (List.mem_cons_self _ _)
      rw [evaluateRules_cons_err ctx r' rs' m hm]
      exact ih fun x hx => hall x (List.mem_cons_of_mem _ hx)

/-- C8 witness: a one-rule table whose condition always raises is skipped,
and since every rule of that table faults the loop degrades to the default
directive. -/
theorem c8_witness :
    LogicCircuit.evaluateRules faultCtx (alwaysFaultingRule :: []) =
      LogicCircuit.evaluateRules faultCtx [] ∧
    LogicCircuit.evaluateRules faultCtx [alwaysFaultingRule] =
      LogicCircuit.defaultDirective faultCtx :=
  ⟨(c8_theorem faultCtx alwaysFaultingRule [] [alwaysFaultingRule] "boom").1 rfl,
   (c8_theorem faultCtx alwaysFaultingRule [] [alwaysFaultingRule] "boom").2
     (fun r' hr' => by
       rw [List.mem_singleton] at hr'
       subst hr'
       exact ⟨"boom", rfl⟩)⟩

/-- The distance just computed is the one stored for the host. -/
theorem calcHostDistance_lookup (st : ThePoint.PointState) (h t : String) :
    ((ThePoint.calcHostDistance st h t).2.host_distances.lookup h) =
      some (ThePoint.calcHostDistance st h t).1 := by
  simp [ThePoint.calcHostDistance, List.lookup]

/-- The updated state keeps the essence and facets. -/
theorem calcHostDistance_essence (st : ThePoint.PointState) (h t : String) :
    (ThePoint.calcHostDistance st h t).2.essence = st.essence ∧
    (ThePoint.calcHostDistance st h t).2.facets = st.facets := ⟨rfl, rfl⟩

/-- A stored distance of at least 0.85 yields the strong pull. -/
theorem gravitationalPull_strong (st : ThePoint.PointState) (host : String)
    (h : 17/20 ≤ ((st.host_distances.lookup host).getD 0 : ℚ)) :
    ThePoint.gravitationalPull st host =
      some { strength := "strong"
             distance := ((st.host_distances.lookup host).getD 0 : ℚ)
             instruction := "You\x27ve drifted far from the point! Core topic is: "
               ++ st.essence ++ ". Reconnect."
             point_essence := st.essence
             point_facets := st.facets } := by
  simp only [ThePoint.gravitationalPull]
  rw [if_neg (by linarith), if_neg (by linarith)]

/-- C2 (amended): the gravitational-pull preemption holds only in the
configuration `broadcast.py` sets up: The Point attached,
`point_monitoring` disabled, and the speaker resolved to a host carrying a
`current_topic_focus`.  Then, on an intervention-cadence turn, a computed
distance of at least 0.85 makes `get_directive` return the strong
gravitational-pull directive before consulting the rule engine.  With the
`__init__` default `point_monitoring = True` the pull path is dead and a
cadence turn instead raises UnboundLocalError (see the counterexample). -/
theorem c2_theorem (d : Director.DirectorState)
    (reports : LogicCircuit.InternReports) (recent : List LogicCircuit.Exchange)
    (g : Director.Host) (pt : ThePoint.PointState) (host_name focus : String)
    (hfreq : d.intervention_frequency ≠ 0)
    (hcad : d.exchange_count % d.intervention_frequency = 0)
    (hpt : d.the_point = some pt)
    (hmon : d.point_monitoring = false)
    (hg : d.goku = some g)
    (hname : g.name = host_name)
    (hfocus : g.current_topic_focus = some focus)
    (hdist : 17/20 ≤ (ThePoint.calcHostDistance pt host_name focus).1) :
    Director.getDirective d reports host_name recent =
      .ok (.directive
        { verb := "FOCUS", noun := "INTERN", command := "FOCUS INTERN"
          instruction := "You\x27ve drifted far from the point! Core topic is: "
            ++ pt.essence ++ ". Reconnect."
          reason := "Gravitational pull: " ++
            Director.percentFmt (ThePoint.calcHostDistance pt host_name focus).1 ++
            " from Point"
          rule_triggered := "point_gravity" }) := by
  obtain ⟨freq, exch, tp, mon, gk, hmr⟩ := d
  obtain ⟨gname, gfocus, garc⟩ := g
  dsimp only at hfreq hcad hpt hmon hg hname hfocus
  subst hpt hmon hg hname hfocus
  have hpull := gravitationalPull_strong
    (ThePoint.calcHostDistance pt gname focus).2 gname
    (by rw [calcHostDistance_lookup]; simpa using hdist)
  rw [calcHostDistance_lookup] at hpull
  simp only [Option.getD_some] at hpull
  simp only [Director.getDirective, Director.getHostByName]
  rw [if_neg (by simp [hfreq]), if_neg (by simp [hcad])]
  simp only [beq_self_eq_true, if_pos]
  rw [hpull]
  simp only [beq_self_eq_true, if_pos]
  rfl

/-- The fresh Point on "honor" is at distance 1 from the focus
"pizza party" (no shared significant term). -/
theorem pizzaDistance_eq_one :
    (ThePoint.calcHostDistance (ThePoint.initPoint "honor") "Goku"
      "pizza party").1 = 1 := by
  have hne : ThePoint.pointTerms (ThePoint.initPoint "honor") ≠ ∅ := by decide
  have hpt : (ThePoint.pointTerms (ThePoint.initPoint "honor")).card = 1 := by decide
  have harc : (ThePoint.arcTerms "pizza party").card = 2 := by decide
  have hint : (ThePoint.arcTerms "pizza party" ∩
      ThePoint.pointTerms (ThePoint.initPoint "honor")).card = 0 := by decide
  simp only [ThePoint.calcHostDistance, if_neg hne]
  rw [if_neg (by rw [hpt]; norm_num), hint, harc, hpt]
  norm_num

/-- C2: the claim quantifies over every `get_directive` call on a cadence
turn, but on a Director whose `point_monitoring` flag still has its
`__init__` value True, a strong-pull distance does not produce the
gravitational-pull directive: the pull gate is closed and the call instead
raises UnboundLocalError on the never-assigned `host` local (director.py
line 158), so no directive is returned at all. -/
theorem c2_counterexample :
    (17/20 : ℚ) ≤ (ThePoint.calcHostDistance (ThePoint.initPoint "honor") "Goku"
      "pizza party").1 ∧
    directorMonitoring.exchange_count % directorMonitoring.intervention_frequency = 0 ∧
    directorMonitoring.point_monitoring = true ∧
    Director.getDirective directorMonitoring reportsEmpty "Goku" [] =
      .error "UnboundLocalError: local variable host referenced before assignment" := by
  refine ⟨?_, by decide, rfl, rfl⟩
  rw [pizzaDistance_eq_one]
  norm_num

/-- C2 witness: with monitoring disabled (the `broadcast.py` wiring) the
same cadence turn and the same drifted focus return the strong
gravitational-pull directive. -/
theorem c2_witness :
    Director.getDirective directorLive reportsEmpty "Goku" [] =
      .ok (.directive
        { verb := "FOCUS", noun := "INTERN", command := "FOCUS INTERN"
          instruction := "You\x27ve drifted far from the point! Core topic is: "
            ++ (ThePoint.initPoint "honor").essence ++ ". Reconnect."
          reason := "Gravitational pull: " ++
            Director.percentFmt
              (ThePoint.calcHostDistance (ThePoint.initPoint "honor") "Goku"
                "pizza party").1 ++ " from Point"
          rule_triggered := "point_gravity" }) :=
  c2_theorem directorLive reportsEmpty [] gokuHost (ThePoint.initPoint "honor")
    "Goku" "pizza party" (by decide) (by decide) rfl rfl rfl rfl rfl
    (by rw [pizzaDistance_eq_one]; norm_num)
